import Mathlib

/-!
Verification of the column-resolver and record-filter core of
`src/app.py` (truck-lookup Streamlit app).

Modelling conventions (shallow embedding):

* Python strings are Lean `String`s; `str.strip()` is modelled by `pyStrip`,
  which removes leading/trailing whitespace characters (faithful for the
  ASCII whitespace that occurs in practice).
* `str.lower()` / `str.casefold()` are modelled by `pyLower` applied
  characterwise (exact for ASCII; `casefold` and `lower` agree on ASCII).
* A pandas cell value is a `Value`: a string, an integer, or the missing
  value (pandas `NaN`).  `Series.astype(str)` is modelled by `valueToStr`;
  note Python's `str(float("nan"))` is the string "nan", so missing values
  coerce to "nan", not to the empty string.
* `Series.str.contains(pat, case=False, na=False)` treats `pat` as a
  regular expression (pandas default `regex=True`) compiled with
  `re.IGNORECASE` and searched anywhere in the string.  We model the regex
  fragment consisting of literal characters, `.`, the postfix operators
  `*`, `+`, `?` (greedy form only, with Python's "nothing to repeat" and
  "multiple repeat" errors), and alternation `|`; the remaining
  metacharacters (groups, classes, anchors, escapes, braces, and the
  lazy/possessive quantifier forms) are reported as pattern errors by the
  model parser — every pattern the model parser accepts is accepted by
  Python's `re.compile`, and Python likewise raises `re.error` for the
  unbalanced ones such as a lone "(", which is the only unsupported
  metacharacter any theorem below evaluates the parser on.
* Matching uses Brzozowski derivatives, case-insensitively (pattern and
  subject characters are compared through `pyLower`, modelling
  `re.IGNORECASE`).
-/

instance {ε α : Type} [DecidableEq ε] [DecidableEq α] : DecidableEq (Except ε α)
  | .error e, .error f => decidable_of_iff (e = f) (by simp)
  | .error _, .ok _ => .isFalse (by simp)
  | .ok _, .error _ => .isFalse (by simp)
  | .ok a, .ok b => decidable_of_iff (a = b) (by simp)

/-- ASCII lowercasing of one character; models Python `str.lower` /
`str.casefold` (they coincide on ASCII). -/
def pyLower (c : Char) : Char :=
  if 65 ≤ c.toNat ∧ c.toNat ≤ 90 then Char.ofNat (c.toNat + 32) else c

/-- Model of Python `str.lower()`. -/
def pyLowerS (s : String) : String := String.mk (s.data.map pyLower)

/-- Model of Python `str.casefold()` (agrees with `lower` on ASCII). -/
def pyCasefoldS (s : String) : String := String.mk (s.data.map pyLower)

/-- Model of Python `str.strip()`: drop leading and trailing whitespace. -/
def pyStrip (s : String) : String :=
  String.mk (((s.data.dropWhile Char.isWhitespace).reverse.dropWhile
    Char.isWhitespace).reverse)

/-- Executable test: is `n` a prefix of `h`? -/
def isPrefixB : List Char → List Char → Bool
  | [], _ => true
  | _ :: _, [] => false
  | a :: as2, b :: bs => (a == b) && isPrefixB as2 bs

/-- Executable test: does `n` occur as a contiguous substring of `h`?
Models Python's `k in s` on strings. -/
def isSubstr (n : List Char) : List Char → Bool
  | [] => n.isEmpty
  | b :: hs => isPrefixB n (b :: hs) || isSubstr n hs

/-- A pandas cell value: string, integer, or missing (`NaN`). -/
inductive Value
  | str (s : String)
  | intV (n : Int)
  | null
deriving DecidableEq

/-- Model of `astype(str)` on one cell: Python `str()` of the value.
`str(float("nan"))` is `"nan"` — pandas missing values become the string
"nan", which is the behaviour of `src/app.py` lines 132/134. -/
def valueToStr : Value → String
  | .str s => s
  | .intV n => toString n
  | .null => "nan"

/-- A data frame: ordered column names and rows of cells, each row aligned
with `cols` positionally. -/
structure Table where
  cols : List String
  rows : List (List Value)
deriving DecidableEq

/-- Position of column `c` in a column list; models pandas column lookup
(`res[c]`), which raises `KeyError` when absent (`none` here). -/
def colIdx : List String → String → Option Nat
  | [], _ => none
  | c' :: cs, c => if c' == c then some 0 else (colIdx cs c).map (· + 1)

/-- Cell of a row at column position `i` (rows are aligned with `cols`). -/
def getCell (r : List Value) (i : Nat) : Value := r.getD i Value.null

/-! ## Regular expressions (model of the `re` patterns used by
`Series.str.contains`) -/

/-- Regular-expression syntax for the fragment the model supports. -/
inductive RE
  | emp
  | eps
  | chr (c : Char)
  | dot
  | cat (a b : RE)
  | alt (a b : RE)
  | star (a : RE)
deriving DecidableEq

/-- Does the regex accept the empty string? -/
def nullable : RE → Bool
  | .emp => false
  | .eps => true
  | .chr _ => false
  | .dot => false
  | .cat a b => nullable a && nullable b
  | .alt a b => nullable a || nullable b
  | .star _ => true

/-- Brzozowski derivative by character `c`.  Character matching is
case-insensitive through `pyLower`, modelling `re.IGNORECASE`
(`case=False` in `str.contains`). -/
def rderiv : RE → Char → RE
  | .emp, _ => .emp
  | .eps, _ => .emp
  | .chr p, c => if pyLower p == pyLower c then .eps else .emp
  | .dot, _ => .eps
  | .cat a b, c =>
      if nullable a then .alt (.cat (rderiv a c) b) (rderiv b c)
      else .cat (rderiv a c) b
  | .alt a b, c => .alt (rderiv a c) (rderiv b c)
  | .star a, c => .cat (rderiv a c) (.star a)

/-- Does some prefix of `s` match `r`? -/
def prefixMatch : RE → List Char → Bool
  | r, [] => nullable r
  | r, c :: cs => nullable r || prefixMatch (rderiv r c) cs

/-- Does `r` match somewhere inside `s`?  Models `re.search` (which is
what `Series.str.contains` performs). -/
def reSearch : RE → List Char → Bool
  | r, [] => nullable r
  | r, c :: cs => prefixMatch r (c :: cs) || reSearch r cs

/-- Pattern-compilation errors of the model: a quantifier with nothing
before it (Python: "nothing to repeat"), a quantifier directly following
a quantified atom (Python: "multiple repeat" for `**`, `+*`, …; the lazy
`*?` and possessive `*+` quantifier forms are conservatively treated as
outside the supported fragment and also land here), or an unsupported
metacharacter. -/
inductive PErr
  | nothingToRepeat
  | multipleRepeat
  | unsupported (c : Char)
deriving DecidableEq

/-- Concatenation of a list of regexes. -/
def seqList (l : List RE) : RE := l.foldr RE.cat RE.eps

/-- Alternation of a non-empty reversed list of branches. -/
def altList : List RE → RE
  | [] => RE.emp
  | [r] => r
  | r :: rs => RE.alt (altList rs) r

/-- Literal regex for a character list. -/
def litRE (q : List Char) : RE := seqList (q.map RE.chr)

/-- Metacharacters the model's parser rejects (Python's `re` gives them
special meaning; a lone "(" likewise raises `re.error` in Python). -/
def unsupportedChars : List Char := ['(', ')', '[', ']', '\\', '^', '$', '\x7b', '\x7d']

/-- All regex metacharacters of Python's `re` syntax; a query avoiding
these is matched literally by `re.search`. -/
def metaChars : List Char :=
  ['.', '*', '+', '?', '|', '(', ')', '[', ']', '\\', '^', '$', '\x7b', '\x7d']

/-- Parser loop over the pattern characters.  `atoms` is the reversed
list of atoms of the current branch, `alts` the reversed list of finished
branches, and `rep` records whether the most recent atom was produced by
a quantifier — a further quantifier on it is Python's "multiple repeat"
error (`re.compile("a**")` raises `re.error`). -/
def parseLoop : List Char → List RE → List RE → Bool → Except PErr RE
  | [], atoms, alts, _ => .ok (altList (seqList atoms.reverse :: alts))
  | c :: rest, atoms, alts, rep =>
    if c = '.' then parseLoop rest (RE.dot :: atoms) alts false
    else if c = '*' then
      match atoms with
      | [] => .error .nothingToRepeat
      | a :: as2 =>
        if rep then .error .multipleRepeat
        else parseLoop rest (RE.star a :: as2) alts true
    else if c = '+' then
      match atoms with
      | [] => .error .nothingToRepeat
      | a :: as2 =>
        if rep then .error .multipleRepeat
        else parseLoop rest (RE.cat a (RE.star a) :: as2) alts true
    else if c = '?' then
      match atoms with
      | [] => .error .nothingToRepeat
      | a :: as2 =>
        if rep then .error .multipleRepeat
        else parseLoop rest (RE.alt RE.eps a :: as2) alts true
    else if c = '|' then parseLoop rest [] (seqList atoms.reverse :: alts) false
    else if c ∈ unsupportedChars then .error (.unsupported c)
    else parseLoop rest (RE.chr c :: atoms) alts false

/-- Compile a pattern string; models `re.compile` on the supported
fragment.  Every pattern this parser accepts is also accepted by
Python's `re.compile`; patterns it rejects either raise `re.error` in
Python ("nothing to repeat", "multiple repeat", unbalanced
parenthesis/bracket) or fall outside the supported fragment (groups,
classes, anchors, escapes, braces, lazy/possessive quantifiers). -/
def parsePat (s : String) : Except PErr RE := parseLoop s.data [] [] false

/-! ## The record filter (src/app.py lines 122–137) -/

/-- Errors the filter block can raise: a missing column (pandas
`KeyError` from the projection `_df[[...]]` / `res[col]`) or a regex
compilation error from `str.contains`. -/
inductive FilterError
  | invalidColumn
  | badPattern (e : PErr)
deriving DecidableEq

/-- The boolean mask over the coerced identifier strings
(src/app.py lines 131–134): exact mode compares casefolded strings,
partial mode is `str.contains(active, case=False, na=False)`, i.e. a
case-insensitive regex search. -/
def strMask (strs : List String) (active : String) (exact : Bool) :
    Except FilterError (List Bool) :=
  if exact then
    .ok (strs.map (fun s => pyCasefoldS s == pyCasefoldS active))
  else
    match parsePat active with
    | .error e => .error (.badPattern e)
    | .ok re => .ok (strs.map (fun s => reSearch re s.data))

/-- Model of `res.loc[mask]` (line 135): keep the rows whose mask entry is `true`. -/
def applyMask : List (List Value) → List Bool → List (List Value)
  | [], _ => []
  | _ :: _, [] => []
  | r :: rs, b :: bs => if b then r :: applyMask rs bs else applyMask rs bs

/-- The filter block of src/app.py lines 122–137, restricted to the
identifier column (the three other projected columns play no part in
filtering): look up the identifier column (the projection on line 127
raises `KeyError` when it is absent, before the query guard), strip the
query (line 122), return everything when the stripped query is empty
(line 130 guard), otherwise coerce each identifier cell with
`astype(str)` and keep the rows selected by the mask (lines 131–135). -/
def recordFilter (t : Table) (idCol q : String) (exact : Bool) :
    Except FilterError (List (List Value)) :=
  match colIdx t.cols idCol with
  | none => .error .invalidColumn
  | some i =>
    let active := pyStrip q
    if active = "" then .ok t.rows
    else
      match strMask (t.rows.map (fun r => valueToStr (getCell r i))) active exact with
      | .error e => .error e
      | .ok mask => .ok (applyMask t.rows mask)

/-! ## The column resolver (src/app.py lines 40–47 and 94–97) -/

/-- Does the lowercased column name contain any of the keywords?
(Python: `any(k in lc for k in keywords)` with `lc = c.lower()`.) -/
def kwHit (keywords : List String) (c : String) : Bool :=
  keywords.any (fun k => isSubstr k.data (pyLowerS c).data)

/-- Function `suggest_column` of src/app.py lines 40–47: first column (in
original order) whose lowercased name contains one of the keywords. -/
def suggest_column (cols keywords : List String) : Option String :=
  match cols with
  | [] => none
  | c :: rest => if kwHit keywords c then some c else suggest_column rest keywords

/-- Keyword set for the Identifier role (line 94). -/
def truckKeywords : List String := ["truck", "vehicle", "veh"]

/-- Keyword set for the CounterpartyName role (line 95). -/
def brokerKeywords : List String := ["broker", "party", "vendor", "company"]

/-- Keyword set for the EntityName role (line 96). -/
def pannameKeywords : List String := ["pan name", "panname", "name"]

/-- Keyword set for the EntityId role (line 97). -/
def pannoKeywords : List String := ["pan no", "pan", "panno", "pan number"]

/-- The built-in example table of src/app.py lines 50–59. -/
def make_example_df : Table where
  cols := ["SR NO.", "Date", "Challan No.", "Broker Name", "Truck No.",
           "PAN Name", "PAN No."]
  rows :=
    [[.intV 1, .str "16-08-2025", .str "101", .str "SRPL COMPANY VEHICLE",
      .str "GJ06ZZ1406", .str "SRPL", .str "AAGCS6114G"],
     [.intV 2, .str "16-08-2025", .str "102", .str "SRPL COMPANY VEHICLE",
      .str "GJ06BX1706", .str "SRPL", .str "AAGCS6114G"],
     [.intV 3, .str "16-08-2025", .str "103", .str "SRPL COMPANY VEHICLE",
      .str "GJ06BV8677", .str "SRPL", .str "AAGCS6114G"],
     [.intV 4, .str "16-08-2025", .str "104", .str "SRPL COMPANY VEHICLE",
      .str "GJ06BV8938", .str "SRPL", .str "AAGCS6114G"],
     [.intV 5, .str "16-08-2025", .str "105", .str "SRPL COMPANY VEHICLE",
      .str "GJ06BX1823", .str "SRPL", .str "AAGCS6114G"],
     [.intV 6, .str "16-08-2025", .str "106", .str "SRPL COMPANY VEHICLE",
      .str "GJ06BT9034", .str "SRPL", .str "AAGCS6114G"]]

/-! ## Spec-side match predicates (used to state the refinement claims;
these follow the spec's words, not the code) -/

/-- Spec §4.2 step 4 / glossary "Partial match": the needle occurs as a
case-insensitive literal substring of the haystack. -/
def specPartialMatch (needle hay : String) : Bool :=
  isSubstr (needle.data.map pyLower) (hay.data.map pyLower)

/-- Spec §4.2 step 3 / glossary "Exact match": case-insensitive-folded
string equality. -/
def specExactMatch (needle hay : String) : Bool :=
  pyCasefoldS hay == pyCasefoldS needle

/-! ## Helper lemmas: the derivative matcher on literal patterns is
case-insensitive substring search -/

lemma prefixMatch_eps (s : List Char) : prefixMatch RE.eps s = true := by
  cases s <;> simp [prefixMatch, nullable]

lemma prefixMatch_emp (s : List Char) : prefixMatch RE.emp s = false := by
  induction s with
  | nil => rfl
  | cons c cs ih => simp [prefixMatch, nullable, rderiv, ih]

lemma prefixMatch_alt (a b : RE) (s : List Char) :
    prefixMatch (RE.alt a b) s = (prefixMatch a s || prefixMatch b s) := by
  induction s generalizing a b with
  | nil => rfl
  | cons c cs ih =>
    simp only [prefixMatch, nullable, rderiv, ih]
    cases nullable a <;> cases nullable b <;> simp

lemma prefixMatch_cat_emp (r : RE) (s : List Char) :
    prefixMatch (RE.cat RE.emp r) s = false := by
  induction s with
  | nil => simp [prefixMatch, nullable]
  | cons c cs ih => simp [prefixMatch, nullable, rderiv, ih]

lemma prefixMatch_cat_eps (r : RE) (s : List Char) :
    prefixMatch (RE.cat RE.eps r) s = prefixMatch r s := by
  induction s generalizing r with
  | nil => simp [prefixMatch, nullable]
  | cons c cs ih =>
    simp [prefixMatch, nullable, rderiv, prefixMatch_alt, prefixMatch_cat_emp, ih]

lemma litRE_nil : litRE [] = RE.eps := rfl

lemma litRE_cons (c : Char) (q : List Char) :
    litRE (c :: q) = RE.cat (RE.chr c) (litRE q) := rfl

lemma nullable_lit (q : List Char) : nullable (litRE q) = q.isEmpty := by
  cases q <;> rfl

lemma prefixMatch_lit (q s : List Char) :
    prefixMatch (litRE q) s = isPrefixB (q.map pyLower) (s.map pyLower) := by
  induction q generalizing s with
  | nil => simp [litRE_nil, prefixMatch_eps, isPrefixB]
  | cons c q' ih =>
    cases s with
    | nil => simp [litRE_cons, prefixMatch, nullable, isPrefixB]
    | cons d s' =>
      have hd : rderiv (RE.cat (RE.chr c) (litRE q')) d
          = RE.cat (if pyLower c == pyLower d then RE.eps else RE.emp) (litRE q') := by
        simp [rderiv, nullable]
      by_cases h : pyLower c = pyLower d
      · simp [litRE_cons, prefixMatch, nullable, hd, h, prefixMatch_cat_eps, ih,
          isPrefixB]
      · simp [litRE_cons, prefixMatch, nullable, hd, h, prefixMatch_cat_emp,
          isPrefixB]

lemma reSearch_lit (q s : List Char) :
    reSearch (litRE q) s = isSubstr (q.map pyLower) (s.map pyLower) := by
  induction s with
  | nil => cases q <;> rfl
  | cons d s' ih => simp [reSearch, isSubstr, prefixMatch_lit, ih]

/-! ## Helper lemmas: the parser on metacharacter-free patterns -/

lemma parseLoop_ordinary (cs : List Char) (h : ∀ c ∈ cs, c ∉ metaChars) :
    ∀ atoms alts rep, parseLoop cs atoms alts rep =
      .ok (altList (seqList (atoms.reverse ++ cs.map RE.chr) :: alts)) := by
  induction cs with
  | nil => intro atoms alts rep; simp [parseLoop]
  | cons c cs' ih =>
    intro atoms alts rep
    have hc : c ∉ metaChars := h c (by simp)
    have h' : ∀ x ∈ cs', x ∉ metaChars := fun x hx => h x (by simp [hx])
    simp only [metaChars, List.mem_cons, List.not_mem_nil, or_false, not_or] at hc
    obtain ⟨h1, h2, h3, h4, h5, h6, h7, h8, h9, h10, h11, h12, h13, h14⟩ := hc
    have hn : c ∉ unsupportedChars := by
      simp only [unsupportedChars, List.mem_cons, List.not_mem_nil, or_false, not_or]
      exact ⟨h6, h7, h8, h9, h10, h11, h12, h13, h14⟩
    simp only [parseLoop]
    rw [if_neg h1, if_neg h2, if_neg h3, if_neg h4, if_neg h5, if_neg hn]
    rw [ih h' (RE.chr c :: atoms) alts false]
    simp [List.reverse_cons, List.append_assoc]

lemma parsePat_ordinary (q : String) (h : ∀ c ∈ q.data, c ∉ metaChars) :
    parsePat q = .ok (litRE q.data) := by
  unfold parsePat
  rw [parseLoop_ordinary q.data h [] [] false]
  rfl

/-! ## Helper lemmas: masks and filtering -/

lemma applyMask_map (l : List (List Value)) (f : List Value → Bool) :
    applyMask l (l.map f) = l.filter f := by
  induction l with
  | nil => rfl
  | cons r rs ih => by_cases h : f r <;> simp [applyMask, List.filter_cons, h, ih]

lemma applyMask_length (l : List (List Value)) :
    ∀ m : List Bool, (applyMask l m).length ≤ l.length := by
  induction l with
  | nil => intro m; simp [applyMask]
  | cons r rs ih =>
    intro m
    cases m with
    | nil => simp [applyMask]
    | cons b bs =>
      cases b with
      | false => simpa [applyMask] using Nat.le_succ_of_le (ih bs)
      | true => simpa [applyMask] using Nat.succ_le_succ (ih bs)

lemma colIdx_eq_none (l : List String) (c : String) (h : c ∉ l) :
    colIdx l c = none := by
  induction l with
  | nil => rfl
  | cons a l' ih =>
    simp only [List.mem_cons, not_or] at h
    have e : ¬ (a = c) := fun e => h.1 e.symm
    simp [colIdx, e, ih h.2]

lemma recordFilter_exact_eq (t : Table) (c : String) (i : Nat) (q : String)
    (h : colIdx t.cols c = some i) (hq : pyStrip q ≠ "") :
    recordFilter t c q true =
      .ok (t.rows.filter
        (fun r => specExactMatch (pyStrip q) (valueToStr (getCell r i)))) := by
  simp [recordFilter, h, hq, strMask, List.map_map, Function.comp_def,
    applyMask_map, specExactMatch]

lemma recordFilter_partial_eq (t : Table) (c : String) (i : Nat) (q : String)
    (h : colIdx t.cols c = some i) (hq : pyStrip q ≠ "")
    (hord : ∀ ch ∈ (pyStrip q).data, ch ∉ metaChars) :
    recordFilter t c q false =
      .ok (t.rows.filter
        (fun r => specPartialMatch (pyStrip q) (valueToStr (getCell r i)))) := by
  have hp := parsePat_ordinary (pyStrip q) hord
  simp [recordFilter, h, hq, strMask, hp, List.map_map, Function.comp_def,
    applyMask_map, specPartialMatch, reSearch_lit]

lemma isPrefixB_refl (l : List Char) : isPrefixB l l = true := by
  induction l with
  | nil => rfl
  | cons a l' ih => simp [isPrefixB, ih]

lemma isSubstr_refl (l : List Char) : isSubstr l l = true := by
  cases l with
  | nil => rfl
  | cons b hs => simp [isSubstr, isPrefixB_refl]

lemma isPrefixB_iff (n h : List Char) : isPrefixB n h = true ↔ n <+: h := by
  induction n generalizing h with
  | nil => simp [isPrefixB]
  | cons a n' ih =>
    cases h with
    | nil => simp [isPrefixB]
    | cons b h' => simp [isPrefixB, ih, List.cons_prefix_cons]

lemma isSubstr_iff (n h : List Char) : isSubstr n h = true ↔ n <:+: h := by
  induction h with
  | nil => simp [isSubstr, List.isEmpty_iff]
  | cons b h' ih => simp [isSubstr, isPrefixB_iff, ih, List.infix_cons_iff]

lemma specExactMatch_imp_partial (n h : String)
    (he : specExactMatch n h = true) : specPartialMatch n h = true := by
  have hcf : pyCasefoldS h = pyCasefoldS n := eq_of_beq he
  have hd := congrArg String.data hcf
  simp only [pyCasefoldS] at hd
  simp only [specPartialMatch, hd]
  exact isSubstr_refl _

lemma suggest_column_append_none (l1 l2 ks : List String)
    (h : ∀ c ∈ l1, kwHit ks c = false) :
    suggest_column (l1 ++ l2) ks = suggest_column l2 ks := by
  induction l1 with
  | nil => rfl
  | cons a l' ih =>
    have ha : kwHit ks a = false := h a (by simp)
    simp only [List.cons_append, suggest_column, ha, Bool.false_eq_true, if_false]
    exact ih (fun c hc => h c (by simp [hc]))

/-! ## Claims -/

/-- C1 (counterexample): the partial filter does not perform literal
substring matching on regex-special queries.  With the single identifier
"AB" and the query ".", the code returns the row (pandas `str.contains`
treats "." as a regex wildcard), although "." is not a literal substring
of "AB". -/
theorem C1_counterexample :
    recordFilter ⟨["Truck No."], [[Value.str "AB"]]⟩ "Truck No." "." false =
      .ok [[Value.str "AB"]] ∧ specPartialMatch "." "AB" = false := by
  constructor <;> decide

/-- C1 (amended): for every table, identifier column present at position
`i`, and non-empty trimmed query containing no regex metacharacter, the
partial filter (exact=false) returns exactly those rows whose identifier
value, coerced to a string, contains the trimmed query as a
case-insensitive literal substring, in original order.  Queries with
regex metacharacters are instead interpreted as regular expressions by
`str.contains` (pandas default `regex=True`). -/
theorem C1_partial_is_literal_substring_for_plain_queries
    (t : Table) (c : String) (i : Nat) (q : String)
    (h : colIdx t.cols c = some i) (hq : pyStrip q ≠ "")
    (hord : ∀ ch ∈ (pyStrip q).data, ch ∉ metaChars) :
    recordFilter t c q false =
      .ok (t.rows.filter
        (fun r => specPartialMatch (pyStrip q) (valueToStr (getCell r i)))) :=
  recordFilter_partial_eq t c i q h hq hord

/-- C1 witness: the amended C1 theorem instantiated on the built-in
example table with the metacharacter-free query "GJ06B". -/
theorem C1_partial_is_literal_substring_witness :
    colIdx make_example_df.cols "Truck No." = some 4 ∧
    pyStrip "GJ06B" ≠ "" ∧
    (∀ ch ∈ (pyStrip "GJ06B").data, ch ∉ metaChars) ∧
    recordFilter make_example_df "Truck No." "GJ06B" false =
      .ok (make_example_df.rows.filter
        (fun r => specPartialMatch (pyStrip "GJ06B") (valueToStr (getCell r 4)))) :=
  ⟨by decide, by decide, by decide,
    C1_partial_is_literal_substring_for_plain_queries make_example_df "Truck No."
      4 "GJ06B" (by decide) (by decide) (by decide)⟩

/-- C2 (counterexample): on a table whose columns are exactly
["PAN Name", "PAN No."], the resolver assigns the EntityId role to
"PAN Name" (its keyword "pan" matches "pan name" first), not to
"PAN No.", and hence returns the same column for both the EntityName and
EntityId roles — contradicting the claim for every table containing both
columns. -/
theorem C2_counterexample :
    suggest_column ["PAN Name", "PAN No."] pannoKeywords = some "PAN Name" ∧
    suggest_column ["PAN Name", "PAN No."] pannameKeywords = some "PAN Name" := by
  constructor <;> decide

/-- C2 (amended): the resolver assigns "PAN Name" to EntityName and
"PAN No." to EntityId only when "PAN No." precedes "PAN Name" in column
order and no earlier column matches the corresponding keyword set: for
columns `l1 ++ ("PAN No." :: (l2 ++ ("PAN Name" :: l3)))` where no column of
`l1` matches an EntityId keyword and no column of `l1` or `l2` matches an
EntityName keyword, EntityName resolves to "PAN Name" and EntityId to
"PAN No.". -/
theorem C2_resolver_keyword_order
    (l1 l2 l3 : List String)
    (h1 : ∀ c ∈ l1, kwHit pannoKeywords c = false)
    (h2 : ∀ c ∈ l1 ++ l2, kwHit pannameKeywords c = false) :
    suggest_column (l1 ++ ("PAN No." :: (l2 ++ ("PAN Name" :: l3)))) pannameKeywords
        = some "PAN Name" ∧
    suggest_column (l1 ++ ("PAN No." :: (l2 ++ ("PAN Name" :: l3)))) pannoKeywords
        = some "PAN No." := by
  constructor
  · rw [suggest_column_append_none l1 ("PAN No." :: (l2 ++ ("PAN Name" :: l3)))
      pannameKeywords (fun c hc => h2 c (by simp [hc]))]
    rw [show suggest_column ("PAN No." :: (l2 ++ ("PAN Name" :: l3))) pannameKeywords
        = suggest_column (l2 ++ ("PAN Name" :: l3)) pannameKeywords by
      simp [suggest_column, show kwHit pannameKeywords "PAN No." = false by decide]]
    rw [suggest_column_append_none l2 ("PAN Name" :: l3) pannameKeywords
      (fun c hc => h2 c (by simp [hc]))]
    simp [suggest_column, show kwHit pannameKeywords "PAN Name" = true by decide]
  · rw [suggest_column_append_none l1 ("PAN No." :: (l2 ++ ("PAN Name" :: l3)))
      pannoKeywords h1]
    simp [suggest_column, show kwHit pannoKeywords "PAN No." = true by decide]

/-- C2 witness: the amended C2 theorem instantiated on the two-column
table ["PAN No.", "PAN Name"]. -/
theorem C2_resolver_keyword_order_witness :
    (∀ c ∈ ([] : List String), kwHit pannoKeywords c = false) ∧
    (∀ c ∈ ([] ++ [] : List String), kwHit pannameKeywords c = false) ∧
    (suggest_column (["PAN No.", "PAN Name"]) pannameKeywords = some "PAN Name" ∧
     suggest_column (["PAN No.", "PAN Name"]) pannoKeywords = some "PAN No.") :=
  ⟨by decide, by decide,
    C2_resolver_keyword_order [] [] [] (by decide) (by decide)⟩

/-- C3 (confirmed): for every table, identifier column present at
position `i` and non-empty trimmed query, the exact filter (exact=true)
returns exactly those rows whose coerced identifier string, case-folded,
equals the trimmed case-folded query, in original order.  Scenario A
(one row "GJ06BX1706", query "gj06bx1706") is the witness below. -/
theorem C3_exact_filter_is_casefold_equality
    (t : Table) (c : String) (i : Nat) (q : String)
    (h : colIdx t.cols c = some i) (hq : pyStrip q ≠ "") :
    recordFilter t c q true =
      .ok (t.rows.filter
        (fun r => specExactMatch (pyStrip q) (valueToStr (getCell r i)))) :=
  recordFilter_exact_eq t c i q h hq

/-- C3 witness: Scenario A — a one-row table with identifier
"GJ06BX1706" and the query "gj06bx1706" with exact=true returns exactly
that row. -/
theorem C3_exact_filter_witness :
    colIdx (Table.mk ["Truck No."] [[Value.str "GJ06BX1706"]]).cols "Truck No."
        = some 0 ∧
    pyStrip "gj06bx1706" ≠ "" ∧
    recordFilter ⟨["Truck No."], [[Value.str "GJ06BX1706"]]⟩ "Truck No."
        "gj06bx1706" true = .ok [[Value.str "GJ06BX1706"]] :=
  ⟨by decide, by decide,
    (C3_exact_filter_is_casefold_equality ⟨["Truck No."], [[Value.str "GJ06BX1706"]]⟩
      "Truck No." 0 "gj06bx1706" (by decide) (by decide)).trans (by decide)⟩

/-- C4 (confirmed): filtering with a query whose trimmed form is empty
returns all rows of the table unchanged and in order, for either value of
the exact flag, whenever the identifier column exists. -/
theorem C4_empty_query_returns_all_rows
    (t : Table) (c : String) (i : Nat) (q : String) (e : Bool)
    (h : colIdx t.cols c = some i) (hq : pyStrip q = "") :
    recordFilter t c q e = .ok t.rows := by
  simp [recordFilter, h, hq]

/-- C4 witness: the whitespace-only query "   " on the example table
returns all six rows. -/
theorem C4_empty_query_witness :
    colIdx make_example_df.cols "Truck No." = some 4 ∧
    pyStrip "   " = "" ∧
    recordFilter make_example_df "Truck No." "   " false = .ok make_example_df.rows :=
  ⟨by decide, by decide,
    C4_empty_query_returns_all_rows make_example_df "Truck No." 4 "   " false
      (by decide) (by decide)⟩

/-- C5 (counterexample): a row whose identifier is missing does match the
non-empty query "nan" with exact=true, because `astype(str)` coerces the
missing value to the string "nan", not to the empty string as the claim
states. -/
theorem C5_counterexample :
    recordFilter ⟨["Truck No."], [[Value.null]]⟩ "Truck No." "nan" true =
      .ok [[Value.null]] ∧ valueToStr Value.null = "nan" := by
  constructor <;> decide

/-- C5 (amended): a row whose identifier value is absent/null is coerced
to the string "nan" by `astype(str)`; consequently it matches exactly
those queries that the string "nan" satisfies — in particular any query
whose trimmed case-folded form is "nan" selects such a row in exact
mode. -/
theorem C5_null_coerced_to_nan_matches
    (t : Table) (c : String) (i : Nat) (q : String)
    (h : colIdx t.cols c = some i) (hq : pyStrip q ≠ "")
    (hnan : pyCasefoldS (pyStrip q) = "nan")
    (r : List Value) (hr : r ∈ t.rows) (hcell : getCell r i = Value.null) :
    ∃ rs, recordFilter t c q true = .ok rs ∧ r ∈ rs := by
  refine ⟨_, recordFilter_exact_eq t c i q h hq, ?_⟩
  rw [List.mem_filter]
  refine ⟨hr, ?_⟩
  rw [hcell]
  simp [specExactMatch, hnan, valueToStr]
  decide

/-- C5 witness: the amended C5 theorem instantiated on a one-row table
with a missing identifier and the query "nan". -/
theorem C5_null_coerced_witness :
    colIdx (Table.mk ["Truck No."] [[Value.null]]).cols "Truck No." = some 0 ∧
    pyStrip "nan" ≠ "" ∧
    pyCasefoldS (pyStrip "nan") = "nan" ∧
    [Value.null] ∈ (Table.mk ["Truck No."] [[Value.null]]).rows ∧
    getCell [Value.null] 0 = Value.null ∧
    (∃ rs, recordFilter ⟨["Truck No."], [[Value.null]]⟩ "Truck No." "nan" true
        = .ok rs ∧ [Value.null] ∈ rs) :=
  ⟨by decide, by decide, by decide, by simp, by decide,
    C5_null_coerced_to_nan_matches ⟨["Truck No."], [[Value.null]]⟩ "Truck No." 0
      "nan" (by decide) (by decide) (by decide) [Value.null] (by simp) (by decide)⟩

/-- C6 (counterexample): the filter is not total on all query strings —
the well-formed query "(" makes the partial filter raise a pattern error
(Python: `re.error` for an unbalanced parenthesis), so it can fail even
when the identifier column is valid. -/
theorem C6_counterexample :
    recordFilter make_example_df "Truck No." "(" false =
      .error (FilterError.badPattern (PErr.unsupported '(')) := by
  decide

/-- C6 (amended): with a valid identifier column the filter is total in
exact mode, for empty trimmed queries, and in partial mode whenever the
trimmed query compiles as a regex pattern; whenever it returns, the
result row count is at most the input row count (and at least 0, being a
natural number).  Partial mode can still fail on regex-invalid queries
such as "(". -/
theorem C6_total_and_bounded_on_valid_patterns
    (t : Table) (c : String) (i : Nat) (q : String) (e : Bool)
    (h : colIdx t.cols c = some i)
    (hp : e = true ∨ pyStrip q = "" ∨ ∃ re, parsePat (pyStrip q) = .ok re) :
    ∃ rs, recordFilter t c q e = .ok rs ∧ rs.length ≤ t.rows.length := by
  by_cases hq : pyStrip q = ""
  · exact ⟨t.rows, by simp [recordFilter, h, hq], Nat.le_refl _⟩
  · cases e with
    | true =>
      refine ⟨applyMask t.rows
        ((t.rows.map fun r => valueToStr (getCell r i)).map
          (fun s => pyCasefoldS s == pyCasefoldS (pyStrip q))), ?_,
        applyMask_length _ _⟩
      simp [recordFilter, h, hq, strMask]
    | false =>
      rcases hp with he | hq' | ⟨re, hre⟩
      · exact absurd he (by simp)
      · exact absurd hq' hq
      · refine ⟨applyMask t.rows
          ((t.rows.map fun r => valueToStr (getCell r i)).map
            (fun s => reSearch re s.data)), ?_, applyMask_length _ _⟩
        simp [recordFilter, h, hq, strMask, hre]

/-- C6 witness: the amended C6 theorem instantiated on the example table
with the regex-valid query "GJ06B" in partial mode. -/
theorem C6_total_and_bounded_witness :
    colIdx make_example_df.cols "Truck No." = some 4 ∧
    (false = true ∨ pyStrip "GJ06B" = "" ∨
      ∃ re, parsePat (pyStrip "GJ06B") = .ok re) ∧
    (∃ rs, recordFilter make_example_df "Truck No." "GJ06B" false = .ok rs ∧
      rs.length ≤ make_example_df.rows.length) :=
  ⟨by decide, Or.inr (Or.inr ⟨litRE "GJ06B".data, by decide⟩),
    C6_total_and_bounded_on_valid_patterns make_example_df "Truck No." 4 "GJ06B"
      false (by decide) (Or.inr (Or.inr ⟨litRE "GJ06B".data, by decide⟩))⟩

/-- C7 (counterexample): the partial result is not always a superset of
the exact result.  For the one-row table with identifier "a+b" and the
non-empty single-token query "a+b", exact mode matches the row (casefold
equality) but partial mode treats "a+b" as the regex one-or-more "a"
followed by "b", which does not occur in "a+b" — the partial result is
empty. -/
theorem C7_counterexample :
    recordFilter ⟨["Truck No."], [[Value.str "a+b"]]⟩ "Truck No." "a+b" true =
      .ok [[Value.str "a+b"]] ∧
    recordFilter ⟨["Truck No."], [[Value.str "a+b"]]⟩ "Truck No." "a+b" false =
      .ok [] := by
  constructor <;> decide

/-- C7 (amended): for every table, identifier column present at position
`i`, and non-empty trimmed query containing no regex metacharacter, the
rows returned with exact=false are a superset of the rows returned with
exact=true for the same query. -/
theorem C7_partial_superset_of_exact
    (t : Table) (c : String) (i : Nat) (q : String) (rsE rsP : List (List Value))
    (h : colIdx t.cols c = some i) (hq : pyStrip q ≠ "")
    (hord : ∀ ch ∈ (pyStrip q).data, ch ∉ metaChars)
    (he : recordFilter t c q true = .ok rsE)
    (hp : recordFilter t c q false = .ok rsP) :
    rsE ⊆ rsP := by
  rw [recordFilter_exact_eq t c i q h hq] at he
  rw [recordFilter_partial_eq t c i q h hq hord] at hp
  have heq := (Except.ok.injEq _ _ ).mp he
  have hpq := (Except.ok.injEq _ _ ).mp hp
  subst heq
  subst hpq
  intro x hx
  rw [List.mem_filter] at hx ⊢
  exact ⟨hx.1, specExactMatch_imp_partial _ _ hx.2⟩

/-- C7 witness: the superset theorem instantiated on the example table
with the query "GJ06BX1706" (both modes return exactly the second
row). -/
theorem C7_partial_superset_witness :
    colIdx make_example_df.cols "Truck No." = some 4 ∧
    pyStrip "GJ06BX1706" ≠ "" ∧
    (∀ ch ∈ (pyStrip "GJ06BX1706").data, ch ∉ metaChars) ∧
    recordFilter make_example_df "Truck No." "GJ06BX1706" true =
      .ok [[Value.intV 2, Value.str "16-08-2025", Value.str "102",
        Value.str "SRPL COMPANY VEHICLE", Value.str "GJ06BX1706",
        Value.str "SRPL", Value.str "AAGCS6114G"]] ∧
    ([[Value.intV 2, Value.str "16-08-2025", Value.str "102",
        Value.str "SRPL COMPANY VEHICLE", Value.str "GJ06BX1706",
        Value.str "SRPL", Value.str "AAGCS6114G"]] : List (List Value)) ⊆
      [[Value.intV 2, Value.str "16-08-2025", Value.str "102",
        Value.str "SRPL COMPANY VEHICLE", Value.str "GJ06BX1706",
        Value.str "SRPL", Value.str "AAGCS6114G"]] :=
  ⟨by decide, by decide, by decide, by decide,
    C7_partial_superset_of_exact make_example_df "Truck No." 4 "GJ06BX1706" _ _
      (by decide) (by decide) (by decide) (by decide) (by decide)⟩

/-- C8 (counterexample): on the built-in example table the partial query
"GJ06B" returns five rows (all but the GJ06ZZ1406 row), not the four the
claim asserts. -/
theorem C8_counterexample :
    recordFilter make_example_df "Truck No." "GJ06B" false =
      .ok (make_example_df.rows.drop 1) ∧
    (make_example_df.rows.drop 1).length ≠ 4 := by
  constructor <;> decide

/-- C8 (amended): on the built-in example table, filtering with query
"GJ06B" and exact=false returns exactly the five rows whose Truck No.
starts with "GJ06B" (GJ06BX1706, GJ06BV8677, GJ06BV8938, GJ06BX1823,
GJ06BT9034) in original order, and excludes the GJ06ZZ1406 row. -/
theorem C8_example_partial_query_five_rows :
    recordFilter make_example_df "Truck No." "GJ06B" false =
      .ok [[Value.intV 2, Value.str "16-08-2025", Value.str "102",
            Value.str "SRPL COMPANY VEHICLE", Value.str "GJ06BX1706",
            Value.str "SRPL", Value.str "AAGCS6114G"],
           [Value.intV 3, Value.str "16-08-2025", Value.str "103",
            Value.str "SRPL COMPANY VEHICLE", Value.str "GJ06BV8677",
            Value.str "SRPL", Value.str "AAGCS6114G"],
           [Value.intV 4, Value.str "16-08-2025", Value.str "104",
            Value.str "SRPL COMPANY VEHICLE", Value.str "GJ06BV8938",
            Value.str "SRPL", Value.str "AAGCS6114G"],
           [Value.intV 5, Value.str "16-08-2025", Value.str "105",
            Value.str "SRPL COMPANY VEHICLE", Value.str "GJ06BX1823",
            Value.str "SRPL", Value.str "AAGCS6114G"],
           [Value.intV 6, Value.str "16-08-2025", Value.str "106",
            Value.str "SRPL COMPANY VEHICLE", Value.str "GJ06BT9034",
            Value.str "SRPL", Value.str "AAGCS6114G"]] := by
  decide

/-- C9 (confirmed): for every table and identifier column name absent
from the table's schema, the filter signals the invalid-column error (the
pandas `KeyError` of the projection) for every query and mode, returning
no rows; the model is pure, so the input table is unchanged. -/
theorem C9_invalid_column_error
    (t : Table) (c : String) (q : String) (e : Bool) (h : c ∉ t.cols) :
    recordFilter t c q e = .error FilterError.invalidColumn := by
  simp [recordFilter, colIdx_eq_none t.cols c h]

/-- C9 witness: the invalid-column theorem instantiated on the example
table with the absent column "Chassis No.". -/
theorem C9_invalid_column_witness :
    "Chassis No." ∉ make_example_df.cols ∧
    recordFilter make_example_df "Chassis No." "GJ06B" false =
      .error FilterError.invalidColumn :=
  ⟨by decide,
    C9_invalid_column_error make_example_df "Chassis No." "GJ06B" false (by decide)⟩

/-- C10 (confirmed): the resolver's role-to-column mapping is not
injective — on the built-in example table both the CounterpartyName role
(broker keywords) and the EntityName role (pan-name keywords, whose
keyword "name" already matches "Broker Name") resolve to the same column
"Broker Name". -/
theorem C10_roles_collide_on_example_table :
    suggest_column make_example_df.cols brokerKeywords = some "Broker Name" ∧
    suggest_column make_example_df.cols pannameKeywords = some "Broker Name" := by
  constructor <;> decide
